import Mathlib

/-!
Verification of the AEGIS anomaly-detection and malware-correlation engine
against its natural-language specification.

The Python sources are shallowly embedded:
* readings are association lists from field names to a `Value` type mirroring
  the Python runtime values that can appear in a JSON payload;
* instants (`datetime` values, epoch timestamps) are integers counting
  seconds; the `strftime`/`strptime` round trip at second granularity is
  modelled as the identity on the instant;
* floating-point scores are modelled as rationals;
* the mutable server-side state touched by the `/detect` route (the alerts
  log file, the anomaly and sensor-data tables, device status and last-seen
  columns) is an explicit `ServerState` record threaded through the step
  functions;
* fallible operations return `Option`; a caught-and-swallowed exception
  becomes the corresponding fallback value, exactly as in the `except`
  branches of the source.
-/

namespace Aegis

/-! ## Configuration constants (src/aegis/config.py) -/

/-- `ANOMALY_THRESHOLD = -0.2` (config.py line 16): score below this is
considered an anomaly. -/
def ANOMALY_THRESHOLD : ℚ := -(1/5)

/-- `MALWARE_WINDOW_SECONDS = 300` (config.py line 19). -/
def MALWARE_WINDOW_SECONDS : Int := 300

/-- `MALWARE_THRESHOLD_COUNT = 3` (config.py line 20): number of anomalies
within the window to trigger a malware alert. -/
def MALWARE_THRESHOLD_COUNT : Nat := 3

/-- `MODEL_FEATURES` (config.py line 23). -/
def MODEL_FEATURES : List String := ["temperature", "pressure", "rpm"]

/-- `REQUIRED_FIELDS` (config.py line 26): fields required for ingestion. -/
def REQUIRED_FIELDS : List String :=
  ["timestamp", "device_id", "temperature", "pressure", "rpm"]

/-! ## Readings as dynamic dictionaries -/

/-- A Python runtime value as it can appear in a decoded JSON payload. -/
inductive Value where
  | vInt (n : Int)
  | vFloat (q : ℚ)
  | vBool (b : Bool)
  | vStr (s : String)
  | vNone
deriving DecidableEq

/-- A decoded JSON object: an association list from field names to values. -/
abbrev Data := List (String × Value)

/-- Python `field in data`. -/
def containsField (d : Data) (f : String) : Bool :=
  (d.lookup f).isSome

/-- Python `data.get(field)`: the stored value, or `None` when absent. -/
def getField (d : Data) (f : String) : Value :=
  (d.lookup f).getD .vNone

/-- Python `isinstance(v, (int, float))`.  In Python `bool` is a subclass of
`int`, so `True` and `False` satisfy this check. -/
def isNumericValue : Value → Bool
  | .vInt _ => true
  | .vFloat _ => true
  | .vBool _ => true
  | .vStr _ => false
  | .vNone => false

/-! ## validate_data (src/aegis/utils.py lines 16-37) -/

/-- The three fields whose values `validate_data` requires to be numeric
(utils.py line 32). -/
def NUMERIC_FIELDS : List String := ["temperature", "pressure", "rpm"]

/-- `[field for field in REQUIRED_FIELDS if field not in data]`
(utils.py line 26). -/
def missingFields (d : Data) : List String :=
  REQUIRED_FIELDS.filter (fun f => !containsField d f)

/-- The `for field in numeric_fields` loop (utils.py lines 33-35): the first
field whose value fails the `isinstance` check, if any. -/
def firstNonNumeric (d : Data) : List String → Option String
  | [] => none
  | f :: fs =>
    if isNumericValue (getField d f) then firstNonNumeric d fs else some f

/-- `validate_data` (utils.py lines 16-37): returns
`(is_valid, error_message)`. -/
def validate_data (d : Data) : Bool × String :=
  if missingFields d = [] then
    match firstNonNumeric d NUMERIC_FIELDS with
    | some f => (false, "Field \x27" ++ f ++ "\x27 must be numeric")
    | none => (true, "")
  else
    (false, "Missing required fields: " ++
      String.intercalate ", " (missingFields d))

/-! ## The alerts log (src/aegis/utils.py lines 98-174) -/

/-- Substring containment on lists of characters (Python `needle in hay` on
strings). -/
def listIsInfixOf (needle : List Char) : List Char → Bool
  | [] => needle.isEmpty
  | c :: t => needle.isPrefixOf (c :: t) || listIsInfixOf needle t

/-- Python `needle in hay` for strings. -/
def strContains (hay needle : String) : Bool :=
  listIsInfixOf needle.toList hay.toList

/-- One line of the alerts log file.  `time` is the instant obtained by
extracting the bracketed prefix and parsing it with
`strptime "%Y-%m-%d %H:%M:%S"` (utils.py lines 155-156); it is `none` when
the line does not match the expected format, which the source skips through
its `except: continue` (lines 163-165).  `text` is the full raw line, over
which the source performs the substring device check (line 161). -/
structure AlertLine where
  time : Option Int
  text : String
deriving DecidableEq

/-- The line `log_anomaly` appends to the alerts log (utils.py lines
110-119).  `tstr` is the `strftime "%Y-%m-%d %H:%M:%S"` rendering of the
instant `t`; the parse-back of that rendering is `t` itself. -/
def log_anomaly_line (deviceId scoreStr dataStr : String) (t : Int)
    (tstr : String) : AlertLine :=
  { time := some t
    text := "[" ++ tstr ++ "] ANOMALY DETECTED: Device " ++ deviceId ++
      ", Score: " ++ scoreStr ++ ", Data: " ++ dataStr }

/-- The `for line in alert_lines` loop of `check_for_malware` (utils.py
lines 152-165): lines whose timestamp fails to parse are skipped; a line is
counted when its parsed time is at least `windowStart` and the line contains
`"Device " ++ deviceId` as a substring. -/
def countAnomalies (deviceId : String) (windowStart : Int) :
    List AlertLine → Nat
  | [] => 0
  | l :: ls =>
    (match l.time with
     | none => 0
     | some t =>
       if windowStart ≤ t then
         if strContains l.text ("Device " ++ deviceId) then 1 else 0
       else 0)
    + countAnomalies deviceId windowStart ls

/-- `check_for_malware` (utils.py lines 126-174).  The alerts log is `none`
when the file does not exist (line 139, returning `(False, 0)`); `now` is
the wall-clock `datetime.now()` read at line 146. -/
def check_for_malware (alertsLog : Option (List AlertLine))
    (deviceId : String) (now : Int) : Bool × Nat :=
  match alertsLog with
  | none => (false, 0)
  | some lines =>
    let windowStart := now - MALWARE_WINDOW_SECONDS
    let anomalyCount := countAnomalies deviceId windowStart lines
    (decide (MALWARE_THRESHOLD_COUNT ≤ anomalyCount), anomalyCount)

/-- Declarative form of the counting predicate of `check_for_malware`: the
line parses, its time is within the window starting at `windowStart`, and
the line mentions the device. -/
def inWindow (deviceId : String) (windowStart : Int) (l : AlertLine) : Bool :=
  match l.time with
  | none => false
  | some t =>
    decide (windowStart ≤ t) && strContains l.text ("Device " ++ deviceId)

/-- Modelled from the spec (section 4.3 `record_and_count`): append the new
anomaly timestamp to the device window, prune all entries with
`timestamp < anomaly_timestamp - window_seconds`, return the window and its
length.  This follows the specification words; the repository has no such
tracker, so this definition exists only to compare the source behaviour
against it. -/
def spec_record_and_count (window : List Int) (t : Int) :
    List Int × Nat :=
  let w := (window ++ [t]).filter (fun ts => decide (t - MALWARE_WINDOW_SECONDS ≤ ts))
  (w, w.length)

/-! ## The scoring model (src/ml_model.py) -/

/-- A trained scoring model: `score_samples` on the single feature row
`(temperature, pressure, rpm)` (ml_model.py line 56), modelled as a function
from the feature vector to the real-valued score. -/
abbrev Model := ℚ × ℚ × ℚ → ℚ

/-- The fixed message of the no-model branch (ml_model.py line 49). -/
def MODEL_NOT_LOADED_MSG : String :=
  "Model not loaded, unable to perform anomaly detection"

/-- Stand-in for the message of the `except` branch of `predict_anomaly`
(ml_model.py line 70); the source interpolates the exception text after this
prefix. -/
def PREDICTION_ERROR_MSG : String := "Error during prediction"

/-- Stand-in for the `"{score:.4f}"` rendering of a score inside the result
message (ml_model.py lines 62 and 64).  Like the source rendering it
consists of digits, signs and separators only; the theorems below depend
only on the fixed message prefixes, never on this rendering. -/
def fmtScore (s : ℚ) : String := toString s

/-- The result triple `(is_anomaly, anomaly_score, message)` of
`predict_anomaly` (ml_model.py line 36). -/
structure PredictResult where
  is_anomaly : Bool
  score : ℚ
  message : String
deriving DecidableEq

/-- The message built at ml_model.py lines 61-64. -/
def score_message (isA : Bool) (s : ℚ) : String :=
  if isA then "Anomaly detected with score " ++ fmtScore s
  else "Normal data point with score " ++ fmtScore s

/-- The scoring body of `predict_anomaly` once a model is present and the
features extracted (ml_model.py lines 56-66): the verdict is the strict
comparison `anomaly_score < ANOMALY_THRESHOLD` (line 59). -/
def predict_point (m : Model) (v : ℚ × ℚ × ℚ) : PredictResult :=
  let s := m v
  let isA := decide (s < ANOMALY_THRESHOLD)
  ⟨isA, s, score_message isA s⟩

/-- Coercion a numpy feature row applies to a payload value: ints and floats
are used as numbers, booleans as 0/1; strings and `None` make the scoring
call fail. -/
def valueToQ : Value → Option ℚ
  | .vInt n => some (n : ℚ)
  | .vFloat q => some q
  | .vBool b => some (if b then 1 else 0)
  | .vStr _ => none
  | .vNone => none

/-- `[data_point[feature] for feature in MODEL_FEATURES]` (ml_model.py line
53) followed by the numeric coercion: the ordered feature vector, or `none`
when a feature is absent or unusable (the `except` branch). -/
def extractVec (d : Data) : Option (ℚ × ℚ × ℚ) :=
  match d.lookup "temperature", d.lookup "pressure", d.lookup "rpm" with
  | some a, some b, some c =>
    match valueToQ a, valueToQ b, valueToQ c with
    | some x, some y, some z => some (x, y, z)
    | _, _, _ => none
  | _, _, _ => none

/-- `predict_anomaly` (ml_model.py lines 36-70): with no model loaded it
returns `(False, 0.0, "Model not loaded, ...")` (lines 48-49); an extraction
or scoring failure lands in the `except` branch (lines 68-70). -/
def predict_anomaly (model : Option Model) (d : Data) : PredictResult :=
  match model with
  | none => ⟨false, 0, MODEL_NOT_LOADED_MSG⟩
  | some m =>
    match extractVec d with
    | none => ⟨false, 0, PREDICTION_ERROR_MSG⟩
    | some v => predict_point m v

/-- The possible outcomes of one call to `load_model` (ml_model.py lines
13-27): the model file exists and deserialises to `m`; the model file does
not exist (line 22); or reading/deserialising raises (line 25). -/
inductive LoadOutcome where
  | success (m : Model)
  | fileNotFound
  | loadError

/-- `load_model` (ml_model.py lines 13-27) as a transition on the global
`isolation_forest_model` variable: `prior` is the value before the call, the
result the value after it.  On success the new model is stored; when the
file is missing (line 24) or loading raises (line 27) the variable is set to
`None`. -/
def load_model (prior : Option Model) (outcome : LoadOutcome) :
    Option Model :=
  match outcome with
  | .success m => some m
  | .fileNotFound => none
  | .loadError => none

/-! ## The /detect route (src/aegis/routes.py lines 82-187) -/

/-- A stored anomaly row (`Anomaly.from_dict`, routes.py lines 153-159). -/
structure AnomalyRow where
  deviceId : String
  score : ℚ
  isMalware : Bool
deriving DecidableEq

/-- A stored sensor-data row (`SensorData.from_dict`, routes.py line 134). -/
structure SensorRow where
  deviceId : String
  payload : Data
deriving DecidableEq

/-- The server-side state the `/detect` route reads or writes: the alerts
log file (`none` when it does not exist), the anomaly and sensor-data
tables, and per-device status and last-seen columns. -/
structure ServerState where
  alertsLog : Option (List AlertLine)
  anomalies : List AnomalyRow
  sensorData : List SensorRow
  deviceStatus : List (String × String)
  lastSeen : List (String × Int)
deriving DecidableEq

/-- Overwrite the binding of `k` in an association list. -/
def setAssoc {α : Type} (l : List (String × α)) (k : String) (v : α) :
    List (String × α) :=
  (k, v) :: l.filter (fun p => !(p.1 == k))

/-- The result fields the route computes (routes.py lines 145-146 and
169-182): `is_potential_malware` and `anomaly_count` are `False`/`0` unless
the reading is anomalous. -/
structure DetectOut where
  is_anomaly : Bool
  is_potential_malware : Bool
  anomaly_count : Nat
deriving DecidableEq

/-- The stateful core of the `/detect` route after validation and the model
check (routes.py lines 129-166): update the device last-seen column, store
the sensor row, and — only when the scorer classified the reading anomalous
— run `check_for_malware` over the alerts log, store the anomaly row, and
mark the device `compromised` when flagged.  `deviceId` is the reading's
`device_id` field as a string; `now` is the wall clock `check_for_malware`
reads internally. -/
def detect_step (st : ServerState) (deviceId : String) (payload : Data)
    (is_anomaly : Bool) (score : ℚ) (now : Int) : DetectOut × ServerState :=
  let st1 : ServerState :=
    { st with
      lastSeen := setAssoc st.lastSeen deviceId now
      sensorData := st.sensorData ++ [⟨deviceId, payload⟩] }
  if is_anomaly then
    let mal := (check_for_malware st1.alertsLog deviceId now).1
    let cnt := (check_for_malware st1.alertsLog deviceId now).2
    let st2 : ServerState :=
      { st1 with anomalies := st1.anomalies ++ [⟨deviceId, score, mal⟩] }
    let st3 : ServerState :=
      if mal then
        { st2 with deviceStatus := setAssoc st2.deviceStatus deviceId "compromised" }
      else st2
    (⟨true, mal, cnt⟩, st3)
  else
    (⟨false, false, 0⟩, st1)

/-- A `/detect` response: an error body with HTTP status 400 (routes.py
lines 105-108 and 113-116), or a success body carrying the detection
fields. -/
inductive RouteResponse where
  | err (msg : String)
  | ok (r : DetectOut)
deriving DecidableEq

/-- The route's own required-field loop (routes.py lines 102-108): the first
field of the list absent from the payload, if any. -/
def firstMissing (d : Data) : List String → Option String
  | [] => none
  | f :: fs => if containsField d f then firstMissing d fs else some f

/-- The field order of the route's validation loop (routes.py line 102). -/
def ROUTE_REQUIRED_FIELDS : List String :=
  ["device_id", "timestamp", "temperature", "pressure", "rpm"]

/-- The `/detect` route (routes.py lines 82-187): reject the payload on the
first missing required field before any state change; reject when no model
is available (lines 110-116), also before any state change; otherwise score
the reading and run `detect_step`. -/
def detect_route (model : Option Model) (st : ServerState) (d : Data)
    (deviceId : String) (now : Int) : RouteResponse × ServerState :=
  match firstMissing d ROUTE_REQUIRED_FIELDS with
  | some f => (.err ("Missing required field: " ++ f), st)
  | none =>
    match model with
    | none => (.err "No trained model available for anomaly detection", st)
    | some m =>
      let pr := predict_anomaly (some m) d
      let (res, st2) := detect_step st deviceId d pr.is_anomaly pr.score now
      (.ok res, st2)

/-! ## Concrete inputs used by counterexamples and witnesses -/

/-- The lines of an alerts log that may not exist on disk. -/
def logLines : Option (List AlertLine) → List AlertLine
  | none => []
  | some ls => ls

/-- An alerts-log line for device `"d"` at instant 100. -/
def c1Line : AlertLine :=
  log_anomaly_line "d" "-0.3000" "temperature=20, pressure=5, rpm=1200" 100
    "1970-01-01 00:01:40"

/-- An alerts-log line for device `"dev10"` at instant 350. -/
def dev10Line : AlertLine :=
  log_anomaly_line "dev10" "-0.2500" "temperature=21, pressure=6, rpm=900" 350
    "1970-01-01 00:05:50"

/-- A server state with an existing but empty alerts log and empty tables:
the state of a deployment before any anomaly. -/
def freshState : ServerState :=
  { alertsLog := some []
    anomalies := []
    sensorData := []
    deviceStatus := []
    lastSeen := [] }

/-- A model scoring every vector exactly at the configured threshold. -/
def cModel : Model := fun _ => ANOMALY_THRESHOLD

/-- A payload carrying only the three numeric features. -/
def c8Data : Data :=
  [("temperature", .vInt 1), ("pressure", .vInt 2), ("rpm", .vInt 3)]

/-- A complete payload with integer features. -/
def c5Data : Data :=
  [("device_id", .vStr "d"), ("timestamp", .vInt 0),
   ("temperature", .vInt 1), ("pressure", .vInt 2), ("rpm", .vInt 3)]

/-- A complete payload whose three numeric features hold booleans. -/
def c10Data : Data :=
  [("timestamp", .vInt 0), ("device_id", .vStr "d"),
   ("temperature", .vBool true), ("pressure", .vBool false),
   ("rpm", .vBool true)]

/-! ## Helper lemmas -/

/-- Two strings whose first characters differ are different. -/
lemma string_head_ne (c₁ c₂ : Char) {a b : String}
    (h₁ : a.data.head? = some c₁) (h₂ : b.data.head? = some c₂)
    (hc : c₁ ≠ c₂) : a ≠ b := by
  intro e
  rw [e, h₂] at h₁
  exact hc (Option.some.inj h₁).symm

/-- A scored verdict message never equals the no-model message. -/
lemma score_message_ne (isA : Bool) (s : ℚ) :
    score_message isA s ≠ MODEL_NOT_LOADED_MSG := by
  cases isA with
  | false => exact string_head_ne 'N' 'M' rfl rfl (by decide)
  | true => exact string_head_ne 'A' 'M' rfl rfl (by decide)

/-- The loop of `check_for_malware` counts exactly the lines satisfying the
declarative in-window predicate. -/
lemma countAnomalies_eq_countP (dev : String) (ws : Int) :
    ∀ ls : List AlertLine,
      countAnomalies dev ws ls = ls.countP (inWindow dev ws)
  | [] => rfl
  | l :: ls => by
    rw [List.countP_cons, countAnomalies, countAnomalies_eq_countP dev ws ls,
      Nat.add_comm]
    congr 1
    unfold inWindow
    cases h : l.time with
    | none => simp
    | some t =>
      by_cases hw : ws ≤ t
      · by_cases hc : strContains l.text ("Device " ++ dev) = true <;>
          simp [hw, hc]
      · simp [hw]

/-- `missingFields` is empty exactly when every required field is present. -/
lemma missingFields_eq_nil (d : Data) :
    missingFields d = [] ↔ ∀ f ∈ REQUIRED_FIELDS, containsField d f = true := by
  simp [missingFields, List.filter_eq_nil_iff]

/-- Membership in `missingFields`. -/
lemma mem_missingFields (d : Data) (f : String) :
    f ∈ missingFields d ↔ f ∈ REQUIRED_FIELDS ∧ containsField d f = false := by
  simp [missingFields, List.mem_filter]

/-- The numeric-check loop accepts exactly when every listed field holds a
numeric value. -/
lemma firstNonNumeric_eq_none (d : Data) (fs : List String) :
    firstNonNumeric d fs = none ↔
      ∀ f ∈ fs, isNumericValue (getField d f) = true := by
  induction fs with
  | nil => simp [firstNonNumeric]
  | cons g gs ih =>
    by_cases h : isNumericValue (getField d g) = true
    · simp [firstNonNumeric, h, ih]
    · simp [firstNonNumeric, h]

/-- The field returned by the numeric-check loop is a listed field holding a
non-numeric value. -/
lemma firstNonNumeric_some (d : Data) (fs : List String) (f : String)
    (h : firstNonNumeric d fs = some f) :
    f ∈ fs ∧ isNumericValue (getField d f) = false := by
  induction fs with
  | nil => simp [firstNonNumeric] at h
  | cons g gs ih =>
    rw [firstNonNumeric] at h
    by_cases hg : isNumericValue (getField d g) = true
    · rw [if_pos hg] at h
      rcases ih h with ⟨h1, h2⟩
      exact ⟨List.mem_cons_of_mem _ h1, h2⟩
    · rw [if_neg hg] at h
      cases h
      exact ⟨List.mem_cons_self _ _, by simpa using hg⟩

/-- The route's validation loop passes exactly when every listed field is
present. -/
lemma firstMissing_eq_none (d : Data) (fs : List String) :
    firstMissing d fs = none ↔ ∀ f ∈ fs, containsField d f = true := by
  induction fs with
  | nil => simp [firstMissing]
  | cons g gs ih =>
    by_cases h : containsField d g = true
    · simp [firstMissing, h, ih]
    · simp [firstMissing, h]

/-! ## Claim theorems -/

/-- C1, counterexample.  The claim says the window boundary is computed from
the recorded anomaly's own timestamp, never from the wall clock at check
time, and that stale entries are removed.  On the source, the same stored
history (one line for device `"d"` at instant 100) yields count 1 when the
wall clock at check time is 150 but count 0 when it is 500, so the boundary
is wall-clock-anchored; the anomaly-anchored tracker of the specification,
recording an anomaly at 150 over the same history, would report 2. -/
theorem malware_window_wall_clock_counterexample :
    (check_for_malware (some [c1Line]) "d" 150).2 = 1 ∧
    (check_for_malware (some [c1Line]) "d" 500).2 = 0 ∧
    (spec_record_and_count [100] 150).2 = 2 := by
  refine ⟨by decide, by decide, by decide⟩

/-- C1, amended: `check_for_malware` removes nothing from the alerts log (it
is a read-only count over the unmodified line list); it counts exactly the
lines whose bracketed timestamp parses, is at least the wall clock at check
time minus `MALWARE_WINDOW_SECONDS`, and whose text mentions the device —
the boundary is anchored to the wall clock at check time, not to the
recorded anomaly's timestamp. -/
theorem check_for_malware_wall_clock_window (lines : List AlertLine)
    (dev : String) (now : Int) :
    check_for_malware (some lines) dev now =
      (decide (MALWARE_THRESHOLD_COUNT ≤
        lines.countP (inWindow dev (now - MALWARE_WINDOW_SECONDS))),
       lines.countP (inWindow dev (now - MALWARE_WINDOW_SECONDS))) := by
  simp [check_for_malware, countAnomalies_eq_countP]

/-- C2, counterexample.  The claim says the first anomalous reading of a
device with no prior anomalies yields an in-window count of 1, the count
including the anomaly just recorded.  On the source, processing the first
anomalous reading against a fresh server state yields `anomaly_count = 0`:
the malware check reads the alerts log before the anomaly is stored, and
the detect path never appends to that log. -/
theorem first_anomaly_count_counterexample :
    (detect_step freshState "d" [] true 0 1000).1.anomaly_count ≠ 1 ∧
    (detect_step freshState "d" [] true 0 1000).1.anomaly_count = 0 := by
  refine ⟨by decide, by decide⟩

/-- C2, amended: for a device with no in-window alerts-log lines (in
particular a device with no prior anomalies), the first anomalous reading
yields `anomaly_count = 0` — the count excludes the anomaly just recorded —
and `is_potential_malware = false` (the threshold, 3, exceeds 0). -/
theorem first_anomaly_count_zero (st : ServerState) (dev : String)
    (payload : Data) (score : ℚ) (now : Int)
    (h : ∀ l ∈ logLines st.alertsLog,
      inWindow dev (now - MALWARE_WINDOW_SECONDS) l = false) :
    (detect_step st dev payload true score now).1 = ⟨true, false, 0⟩ := by
  have hcount : (check_for_malware st.alertsLog dev now).2 = 0 := by
    cases hl : st.alertsLog with
    | none => rfl
    | some ls =>
      simp only [check_for_malware, countAnomalies_eq_countP]
      rw [List.countP_eq_zero]
      intro l hlm
      simpa using h l (by rw [hl]; exact hlm)
  have hmal : (check_for_malware st.alertsLog dev now).1 = false := by
    cases hl : st.alertsLog with
    | none => rfl
    | some ls =>
      have h2 := hcount
      rw [hl] at h2
      simp only [check_for_malware] at h2 ⊢
      rw [h2]
      rfl
  simp [detect_step, hcount, hmal]

/-- Witness for `first_anomaly_count_zero` at the fresh server state. -/
theorem first_anomaly_count_zero_witness :
    (detect_step freshState "d" [] true 0 1000).1 = ⟨true, false, 0⟩ :=
  first_anomaly_count_zero freshState "d" [] 0 1000 (by
    intro l hl
    simp [freshState, logLines] at hl)

/-- C3, code bug.  Per-device counts are not isolated: with an empty alerts
log, device `"dev1"` has count 0; after one in-window anomaly line is
recorded for the distinct device `"dev10"`, the count `check_for_malware`
reports for `"dev1"` becomes 1, because the source tests
`"Device dev1" in line` as a substring and the line for `"dev10"` contains
it. -/
theorem device_isolation_violated_by_substring_match :
    (check_for_malware (some []) "dev1" 400).2 = 0 ∧
    (check_for_malware (some [dev10Line]) "dev1" 400).2 = 1 ∧
    strContains dev10Line.text ("Device " ++ "dev1") = true := by
  refine ⟨by decide, by decide, by decide⟩

/-- C4: for every model and feature vector, the anomaly verdict is exactly
the strict comparison `score < ANOMALY_THRESHOLD`; in particular a score
equal to the threshold is not an anomaly; and `predict_anomaly` delegates to
this comparison whenever a model is loaded and the features extract. -/
theorem anomaly_verdict_strict_threshold :
    (∀ (m : Model) (v : ℚ × ℚ × ℚ),
      (predict_point m v).is_anomaly = decide (m v < ANOMALY_THRESHOLD)) ∧
    (∀ (m : Model) (v : ℚ × ℚ × ℚ),
      m v = ANOMALY_THRESHOLD → (predict_point m v).is_anomaly = false) ∧
    (∀ (m : Model) (d : Data) (v : ℚ × ℚ × ℚ),
      extractVec d = some v → predict_anomaly (some m) d = predict_point m v) := by
  refine ⟨fun m v => rfl, fun m v h => ?_, fun m d v h => ?_⟩
  · simp [predict_point, h]
  · simp [predict_anomaly, h]

/-- Witness for `anomaly_verdict_strict_threshold`: a model scoring exactly
at the threshold yields no anomaly, and `predict_anomaly` on a concrete
payload equals the threshold comparison on its extracted vector. -/
theorem anomaly_verdict_strict_threshold_witness :
    (predict_point cModel (0, 0, 0)).is_anomaly = false ∧
    predict_anomaly (some cModel) c8Data = predict_point cModel (1, 2, 3) :=
  ⟨anomaly_verdict_strict_threshold.2.1 cModel (0, 0, 0) rfl,
   anomaly_verdict_strict_threshold.2.2 cModel c8Data (1, 2, 3) (by decide)⟩

/-- C5: when no model is loaded the `/detect` route answers any complete
payload with the fixed error response and leaves the server state untouched
— never a success verdict; the scorer's no-model result carries the fixed
human-readable reason, which no model-backed verdict message ever equals,
so callers can tell "could not evaluate" from "confirmed normal"; and an
error response never equals a success response. -/
theorem model_unavailable_distinct :
    (∀ (st : ServerState) (d : Data) (dev : String) (now : Int),
      firstMissing d ROUTE_REQUIRED_FIELDS = none →
      detect_route none st d dev now =
        (.err "No trained model available for anomaly detection", st)) ∧
    (∀ d : Data, predict_anomaly none d = ⟨false, 0, MODEL_NOT_LOADED_MSG⟩) ∧
    (∀ (m : Model) (v : ℚ × ℚ × ℚ),
      (predict_point m v).message ≠ MODEL_NOT_LOADED_MSG) ∧
    (∀ (msg : String) (r : DetectOut),
      RouteResponse.err msg ≠ RouteResponse.ok r) := by
  refine ⟨fun st d dev now h => ?_, fun d => rfl, fun m v => ?_, fun msg r => ?_⟩
  · simp [detect_route, h]
  · simpa [predict_point] using
      score_message_ne (decide (m v < ANOMALY_THRESHOLD)) (m v)
  · intro h
    cases h

/-- Witness for `model_unavailable_distinct` at a complete concrete payload
and a concrete model and vector. -/
theorem model_unavailable_distinct_witness :
    detect_route none freshState c5Data "d" 0 =
      (.err "No trained model available for anomaly detection", freshState) ∧
    (predict_point cModel (0, 0, 0)).message ≠ MODEL_NOT_LOADED_MSG :=
  ⟨model_unavailable_distinct.1 freshState c5Data "d" 0 (by decide),
   model_unavailable_distinct.2.2.1 cModel (0, 0, 0)⟩

/-- C6, counterexample.  The claim says that after a failed load the
previously active model remains loaded.  On the source, a failed load
overwrites the global model variable with `None`, discarding the prior
model. -/
theorem load_failure_discards_prior_model :
    load_model (some cModel) .loadError ≠ some cModel := by
  simp [load_model]

/-- C6, amended: a failed load (exception, or missing model file) sets the
model variable to `None` — the prior model is discarded, not retained; the
failure is caught, so the call returns normally, and subsequent scoring
reports the model-not-loaded condition instead of crashing. -/
theorem load_failure_resets_model (prior : Option Model) (d : Data) :
    load_model prior .loadError = none ∧
    load_model prior .fileNotFound = none ∧
    predict_anomaly (load_model prior .loadError) d =
      ⟨false, 0, MODEL_NOT_LOADED_MSG⟩ :=
  ⟨rfl, rfl, rfl⟩

/-- C7: a reading classified non-anomalous yields
`is_potential_malware = false` and `anomaly_count = 0`, leaves the alerts
log, the anomaly table and the device status untouched, and its result does
not depend on any of that state (two arbitrary server states give the same
result fields). -/
theorem nonanomalous_reading_frame (st st₂ : ServerState) (dev : String)
    (payload : Data) (score : ℚ) (now : Int) :
    (detect_step st dev payload false score now).1 = ⟨false, false, 0⟩ ∧
    (detect_step st dev payload false score now).2.alertsLog = st.alertsLog ∧
    (detect_step st dev payload false score now).2.anomalies = st.anomalies ∧
    (detect_step st dev payload false score now).2.deviceStatus =
      st.deviceStatus ∧
    (detect_step st dev payload false score now).1 =
      (detect_step st₂ dev payload false score now).1 :=
  ⟨rfl, rfl, rfl, rfl, rfl⟩

/-- C8, counterexample.  The claim says validation fails with a
missing-field error exactly when one of temperature, pressure, rpm is
absent.  On the source, a payload carrying all three numeric fields but no
`timestamp` and no `device_id` is still rejected with the missing-field
error: the required-field list has five entries, not three. -/
theorem validate_missing_timestamp_counterexample :
    validate_data c8Data =
      (false, "Missing required fields: timestamp, device_id") ∧
    (∀ f ∈ NUMERIC_FIELDS, containsField c8Data f = true) := by
  refine ⟨by decide, by decide⟩

/-- C8, amended: validation fails with the missing-field error exactly when
one of the five required fields (timestamp, device_id, temperature,
pressure, rpm) is absent; it fails with the type-mismatch error exactly
when all five are present but one of the three numeric fields holds a
non-numeric value (in the sense of Python `isinstance(·, (int, float))`);
it succeeds exactly when neither holds; and a payload the route rejects for
a missing field causes no state mutation. -/
theorem validate_data_characterization (d : Data) :
    ((validate_data d).1 = true ↔
      ((∀ f ∈ REQUIRED_FIELDS, containsField d f = true) ∧
       ∀ f ∈ NUMERIC_FIELDS, isNumericValue (getField d f) = true)) ∧
    ((∃ s, validate_data d = (false, "Missing required fields: " ++ s)) ↔
      ∃ f ∈ REQUIRED_FIELDS, containsField d f = false) ∧
    ((∃ f, validate_data d =
        (false, "Field \x27" ++ f ++ "\x27 must be numeric")) ↔
      ((∀ f ∈ REQUIRED_FIELDS, containsField d f = true) ∧
       ∃ f ∈ NUMERIC_FIELDS, isNumericValue (getField d f) = false)) ∧
    (∀ (model : Option Model) (st : ServerState) (dev : String) (now : Int),
      (∃ f ∈ ROUTE_REQUIRED_FIELDS, containsField d f = false) →
      (detect_route model st d dev now).2 = st ∧
      ∃ msg, (detect_route model st d dev now).1 = .err msg) := by
  have route : ∀ (model : Option Model) (st : ServerState) (dev : String)
      (now : Int),
      (∃ f ∈ ROUTE_REQUIRED_FIELDS, containsField d f = false) →
      (detect_route model st d dev now).2 = st ∧
      ∃ msg, (detect_route model st d dev now).1 = .err msg := by
    rintro model st dev now ⟨f, hf, hcf⟩
    cases hfm : firstMissing d ROUTE_REQUIRED_FIELDS with
    | none =>
      have hall := (firstMissing_eq_none d _).mp hfm f hf
      rw [hall] at hcf
      exact Bool.noConfusion hcf
    | some g => simp [detect_route, hfm]
  by_cases hm : missingFields d = []
  · cases hn : firstNonNumeric d NUMERIC_FIELDS with
    | none =>
      have hv : validate_data d = (true, "") := by
        simp [validate_data, hm, hn]
      have hp := (missingFields_eq_nil d).mp hm
      have hnum := (firstNonNumeric_eq_none d NUMERIC_FIELDS).mp hn
      refine ⟨?_, ?_, ?_, route⟩
      · rw [hv]
        exact iff_of_true rfl ⟨hp, hnum⟩
      · rw [hv]
        constructor
        · rintro ⟨s, hs⟩
          exact Bool.noConfusion (congrArg Prod.fst hs)
        · rintro ⟨f, hf, hcf⟩
          rw [hp f hf] at hcf
          exact absurd hcf (by decide)
      · rw [hv]
        constructor
        · rintro ⟨f, hf⟩
          exact Bool.noConfusion (congrArg Prod.fst hf)
        · rintro ⟨-, f, hf, hcf⟩
          rw [hnum f hf] at hcf
          exact absurd hcf (by decide)
    | some g =>
      have hv : validate_data d =
          (false, "Field \x27" ++ g ++ "\x27 must be numeric") := by
        simp [validate_data, hm, hn]
      obtain ⟨hg1, hg2⟩ := firstNonNumeric_some d NUMERIC_FIELDS g hn
      have hp := (missingFields_eq_nil d).mp hm
      refine ⟨?_, ?_, ?_, route⟩
      · rw [hv]
        constructor
        · intro h
          exact Bool.noConfusion h
        · rintro ⟨-, hnum⟩
          rw [hnum g hg1] at hg2
          exact absurd hg2 (by decide)
      · rw [hv]
        constructor
        · rintro ⟨s, hs⟩
          exact absurd (congrArg Prod.snd hs)
            (string_head_ne 'F' 'M' rfl rfl (by decide))
        · rintro ⟨f, hf, hcf⟩
          rw [hp f hf] at hcf
          exact absurd hcf (by decide)
      · rw [hv]
        exact iff_of_true ⟨g, rfl⟩ ⟨hp, g, hg1, hg2⟩
  · have hv : validate_data d =
        (false, "Missing required fields: " ++
          String.intercalate ", " (missingFields d)) := by
      simp [validate_data, hm]
    obtain ⟨f, hfmem⟩ := List.exists_mem_of_ne_nil _ hm
    obtain ⟨hf1, hf2⟩ := (mem_missingFields d f).mp hfmem
    refine ⟨?_, ?_, ?_, route⟩
    · rw [hv]
      constructor
      · intro h
        exact Bool.noConfusion h
      · rintro ⟨hp, -⟩
        rw [hp f hf1] at hf2
        exact absurd hf2 (by decide)
    · rw [hv]
      exact iff_of_true ⟨_, rfl⟩ ⟨f, hf1, hf2⟩
    · rw [hv]
      constructor
      · rintro ⟨g, hg⟩
        exact absurd (congrArg Prod.snd hg).symm
          (string_head_ne 'F' 'M' rfl rfl (by decide))
      · rintro ⟨hp, -⟩
        rw [hp f hf1] at hf2
        exact absurd hf2 (by decide)

/-- Witness for `validate_data_characterization` at the payload missing
`timestamp` and `device_id`. -/
theorem validate_data_characterization_witness :
    (∃ s, validate_data c8Data = (false, "Missing required fields: " ++ s)) ∧
    (detect_route none freshState c8Data "d" 0).2 = freshState :=
  ⟨(validate_data_characterization c8Data).2.1.mpr
      ⟨"timestamp", by decide, by decide⟩,
   ((validate_data_characterization c8Data).2.2.2 none freshState "d" 0
      ⟨"timestamp", by decide, by decide⟩).1⟩

/-- C9: for every alerts log, device and check time, the malware verdict of
`check_for_malware` equals the inclusive comparison
`MALWARE_THRESHOLD_COUNT ≤ count` applied to the count it reports, and the
configured defaults are a threshold count of 3 and a window of 300
seconds. -/
theorem malware_threshold_inclusive (log : Option (List AlertLine))
    (dev : String) (now : Int) :
    (check_for_malware log dev now).1 =
      decide (MALWARE_THRESHOLD_COUNT ≤ (check_for_malware log dev now).2) ∧
    MALWARE_THRESHOLD_COUNT = 3 ∧ MALWARE_WINDOW_SECONDS = 300 := by
  refine ⟨?_, rfl, rfl⟩
  cases log with
  | none => rfl
  | some ls => rfl

/-- C10: a reading whose five required fields are present and whose three
numeric fields hold booleans passes validation: Python's
`isinstance(·, (int, float))` accepts `True` and `False` because `bool` is
a subclass of `int`. -/
theorem booleans_accepted_as_numeric (d : Data)
    (hp : ∀ f ∈ REQUIRED_FIELDS, containsField d f = true)
    (hb : ∀ f ∈ NUMERIC_FIELDS, ∃ b, getField d f = .vBool b) :
    validate_data d = (true, "") := by
  have hm : missingFields d = [] := (missingFields_eq_nil d).mpr hp
  have hn : firstNonNumeric d NUMERIC_FIELDS = none := by
    rw [firstNonNumeric_eq_none]
    intro f hf
    obtain ⟨b, hb2⟩ := hb f hf
    rw [hb2]
    rfl
  simp [validate_data, hm, hn]

/-- Witness for `booleans_accepted_as_numeric` at a concrete boolean-valued
payload. -/
theorem booleans_accepted_as_numeric_witness :
    validate_data c10Data = (true, "") :=
  booleans_accepted_as_numeric c10Data (by decide) (by
    intro f hf
    simp [NUMERIC_FIELDS] at hf
    rcases hf with h | h | h <;> subst h <;> exact ⟨_, rfl⟩)

end Aegis
